import Mathlib

/-!
Verification of the flyr flight-search core: the protobuf-style query
encoder (src/proto.rs), the query validator (src/query.rs) and the
positional response decoder (src/parse.rs), shallowly embedded in Lean.
Byte buffers are `List Nat` (each entry < 256); machine integers are
modelled as `Nat`/`Int` with explicit truncation where the source casts.
-/

namespace Flyr

/-! ## UTF-8 and byte-level string model

Rust strings are UTF-8; `str::len` is the byte length and `str::as_bytes`
the UTF-8 bytes.  `utf8Bytes` is the standard UTF-8 encoding of one scalar
value. -/

def utf8Bytes (c : Nat) : List Nat :=
  if c < 0x80 then [c]
  else if c < 0x800 then [0xC0 + c / 64, 0x80 + c % 64]
  else if c < 0x10000 then [0xE0 + c / 4096, 0x80 + c / 64 % 64, 0x80 + c % 64]
  else [0xF0 + c / 262144, 0x80 + c / 4096 % 64, 0x80 + c / 64 % 64, 0x80 + c % 64]

def strBytes (s : String) : List Nat :=
  (s.data.map fun c => utf8Bytes c.toNat).flatten

/-! ## Wire-format primitives (src/proto.rs lines 3-29)

The Rust code appends into a mutable `Vec<u8>`; we model each helper as the
list of bytes it appends, and buffer building as list concatenation in the
same order.  In `encode_varint`, the source computes `value & 0x7F` and
`value >>= 7`; on `Nat` these are `% 0x80` and `/ 0x80`. -/

def encode_varint_go (fuel value : Nat) : List Nat :=
  match fuel with
  | 0 => []
  | fuel + 1 =>
    if value / 0x80 = 0 then [value % 0x80]
    else (value % 0x80 + 0x80) :: encode_varint_go fuel (value / 0x80)

/-- The fuel `value + 1` always suffices, because the loop variable strictly
decreases; `encode_varint_eq` below proves this model satisfies exactly the
recurrence of the Rust loop. -/
def encode_varint (value : Nat) : List Nat :=
  encode_varint_go (value + 1) value

def encode_tag (field : Nat) (wire_type : Nat) : List Nat :=
  encode_varint ((field <<< 3) ||| wire_type)

def encode_string (field : Nat) (s : String) : List Nat :=
  encode_tag field 2 ++ encode_varint (strBytes s).length ++ strBytes s

def encode_submessage (field : Nat) (inner : List Nat) : List Nat :=
  encode_tag field 2 ++ encode_varint inner.length ++ inner

/-! ## Query data model (src/query.rs lines 7-81) -/

structure FlightLeg where
  date : String
  from_airport : String
  to_airport : String
  max_stops : Option Nat
  airlines : Option (List String)
deriving DecidableEq

structure Passengers where
  adults : Nat
  children : Nat
  infants_in_seat : Nat
  infants_on_lap : Nat
deriving DecidableEq

inductive Seat where
  | Economy
  | PremiumEconomy
  | Business
  | First
deriving DecidableEq

inductive TripType where
  | RoundTrip
  | OneWay
  | MultiCity
deriving DecidableEq

/-! ## Query encoder (src/proto.rs lines 31-119) -/

def encode_airport (code : String) : List Nat :=
  encode_string 2 code

def encode_flight_data (leg : FlightLeg) : List Nat :=
  encode_string 2 leg.date
    ++ (match leg.max_stops with
        | some max_stops => encode_tag 5 0 ++ encode_varint max_stops
        | none => [])
    ++ (match leg.airlines with
        | some airlines => (airlines.map fun airline => encode_string 6 airline).flatten
        | none => [])
    ++ encode_submessage 13 (encode_airport leg.from_airport)
    ++ encode_submessage 14 (encode_airport leg.to_airport)

def seat_to_varint : Seat → Nat
  | Seat.Economy => 1
  | Seat.PremiumEconomy => 2
  | Seat.Business => 3
  | Seat.First => 4

def trip_to_varint : TripType → Nat
  | TripType.RoundTrip => 1
  | TripType.OneWay => 2
  | TripType.MultiCity => 3

def passengers_to_enums (p : Passengers) : List Nat :=
  List.replicate p.adults 1 ++ List.replicate p.children 2
    ++ List.replicate p.infants_in_seat 3 ++ List.replicate p.infants_on_lap 4

def encode (legs : List FlightLeg) (passengers : Passengers) (seat : Seat)
    (trip : TripType) : List Nat :=
  (legs.map fun leg => encode_submessage 3 (encode_flight_data leg)).flatten
    ++ (let pax := passengers_to_enums passengers
        if pax.isEmpty then []
        else
          let packed := (pax.map encode_varint).flatten
          encode_tag 8 2 ++ encode_varint packed.length ++ packed)
    ++ encode_tag 9 0 ++ encode_varint (seat_to_varint seat)
    ++ encode_tag 19 0 ++ encode_varint (trip_to_varint trip)

/-! ## Base64 (model of the base64 crate STANDARD engine: RFC 4648
standard alphabet, with padding), used by QueryParams::to_url_params
(src/query.rs line 173). -/

def base64Alphabet : List Char :=
  "ABCDEFGHIJKLMNOPQRSTUVWXYZabcdefghijklmnopqrstuvwxyz0123456789+/".data

def b64Char (n : Nat) : Char :=
  base64Alphabet.getD n 'A'

def base64Chunks : List Nat → List Char
  | [] => []
  | [a] => [b64Char (a / 4), b64Char (a % 4 * 16), '=', '=']
  | [a, b] => [b64Char (a / 4), b64Char (a % 4 * 16 + b / 16), b64Char (b % 16 * 4), '=']
  | a :: b :: c :: rest =>
      b64Char (a / 4) :: b64Char (a % 4 * 16 + b / 16) :: b64Char (b % 16 * 4 + c / 64)
        :: b64Char (c % 64) :: base64Chunks rest

def base64Encode (bytes : List Nat) : String :=
  String.mk (base64Chunks bytes)

/-- The literal one-way test request of tests/proto_test.rs
(basic_one_way_economy): LAX to NRT on 2026-03-01. -/
def lax_nrt_leg : FlightLeg :=
  { date := "2026-03-01", from_airport := "LAX", to_airport := "NRT",
    max_stops := none, airlines := none }

/-- The return leg of tests/proto_test.rs (round_trip_with_return_leg):
NRT to LAX on 2026-03-10. -/
def nrt_lax_leg : FlightLeg :=
  { date := "2026-03-10", from_airport := "NRT", to_airport := "LAX",
    max_stops := none, airlines := none }

/-- One adult, no other passengers. -/
def one_adult : Passengers :=
  { adults := 1, children := 0, infants_in_seat := 0, infants_on_lap := 0 }

/-! ## Errors (src/error.rs lines 3-19).  `u16` payloads become `Nat`. -/

inductive FlightError where
  | Timeout
  | ConnectionFailed (detail : String)
  | DnsResolution (host : String)
  | ProxyError (detail : String)
  | RateLimited
  | Blocked (status : Nat)
  | HttpStatus (status : Nat)
  | TlsError (detail : String)
  | ScriptTagNotFound
  | JsParse (detail : String)
  | NoResults
  | InvalidAirport (code : String)
  | InvalidDate (date : String)
  | Validation (msg : String)
deriving DecidableEq

instance instDecEqExcept {ε α : Type} [DecidableEq ε] [DecidableEq α] :
    DecidableEq (Except ε α) := fun a b =>
  match a, b with
  | Except.ok a, Except.ok b =>
    if h : a = b then isTrue (congrArg Except.ok h)
    else isFalse fun hc => h (Except.noConfusion hc id)
  | Except.ok _, Except.error _ => isFalse fun hc => Except.noConfusion hc
  | Except.error _, Except.ok _ => isFalse fun hc => Except.noConfusion hc
  | Except.error e, Except.error f =>
    if h : e = f then isTrue (congrArg Except.error h)
    else isFalse fun hc => h (Except.noConfusion hc id)

/-! ## Query validator (src/query.rs lines 83-169) -/

/-- Rust `char::is_ascii_uppercase`: the character is in `A..=Z`
(code points 65 through 90). -/
def is_ascii_uppercase (c : Char) : Bool :=
  65 ≤ c.toNat && c.toNat ≤ 90

/-- src/query.rs lines 83-88.  `code.len()` in Rust is the UTF-8 byte
length, hence `(strBytes code).length`; `code.chars()` is `code.data`. -/
def validate_airport (code : String) : Except FlightError Unit :=
  if (strBytes code).length ≠ 3 ∨ ¬(code.data.all is_ascii_uppercase) then
    Except.error (FlightError.InvalidAirport code)
  else
    Except.ok ()

/-- src/query.rs lines 90-103. -/
def days_in_month (year month : Nat) : Nat :=
  match month with
  | 1 | 3 | 5 | 7 | 8 | 10 | 12 => 31
  | 4 | 6 | 9 | 11 => 30
  | 2 => if (year % 4 = 0 ∧ year % 100 ≠ 0) ∨ year % 400 = 0 then 29 else 28
  | _ => 0

/-- Model of Rust `str::parse::<u32>`: an optional leading `+` sign, then
one or more ASCII digits, and the value must fit in 32 bits; anything else
(empty string, other characters, a `-` sign, overflow) is a parse error. -/
def parseU32 (s : List Char) : Option Nat :=
  let digits := match s with
    | '+' :: rest => rest
    | _ => s
  if digits.isEmpty then none
  else if digits.all Char.isDigit then
    let n := digits.foldl (fun acc c => acc * 10 + (c.toNat - 48)) 0
    if n < 2 ^ 32 then some n else none
  else none

/-- Model of Rust `str::split('-')` collected to a vector: splits at every
separator, keeping empty pieces (so the result is always nonempty). -/
def splitChar (sep : Char) : List Char → List (List Char)
  | [] => [[]]
  | c :: rest =>
    if c = sep then [] :: splitChar sep rest
    else
      match splitChar sep rest with
      | [] => [[c]]
      | p :: ps => (c :: p) :: ps

/-- src/query.rs lines 105-129.  The source checks `parts.len() != 3` and
then parses `parts[0]`, `parts[1]`, `parts[2]` with `?`, which is the
three-element match below; any parse failure yields the same
`InvalidDate` error. -/
def validate_date (date : String) : Except FlightError Unit :=
  match splitChar '-' date.data with
  | [p0, p1, p2] =>
    match parseU32 p0, parseU32 p1, parseU32 p2 with
    | some year, some month, some day =>
      if year < 2000 ∨ ¬(1 ≤ month ∧ month ≤ 12) then
        Except.error (FlightError.InvalidDate date)
      else if day < 1 ∨ day > days_in_month year month then
        Except.error (FlightError.InvalidDate date)
      else
        Except.ok ()
    | _, _, _ => Except.error (FlightError.InvalidDate date)
  | _ => Except.error (FlightError.InvalidDate date)

structure QueryParams where
  legs : List FlightLeg
  passengers : Passengers
  seat : Seat
  trip : TripType
  language : String
  currency : String
deriving DecidableEq

/-- The per-leg loop of QueryParams::validate (src/query.rs lines 139-143):
for each leg in order, `validate_airport(from)?`, `validate_airport(to)?`,
`validate_date(date)?`. -/
def validate_legs : List FlightLeg → Except FlightError Unit
  | [] => Except.ok ()
  | leg :: rest =>
    match validate_airport leg.from_airport with
    | Except.error e => Except.error e
    | Except.ok () =>
      match validate_airport leg.to_airport with
      | Except.error e => Except.error e
      | Except.ok () =>
        match validate_date leg.date with
        | Except.error e => Except.error e
        | Except.ok () => validate_legs rest

/-- The passenger-count checks of QueryParams::validate
(src/query.rs lines 145-167), in source order: total > 9, total == 0,
infants_on_lap > adults.  The source binds
`total = adults + children + infants_in_seat + infants_on_lap` once, a
chain of `u32` additions: in release builds each addition wraps modulo
2^32 (in debug builds an overflowing addition panics instead), so the
total is the wrapping 32-bit sum, written inline here as `% 2 ^ 32`
(chained wrapping additions equal one final reduction). -/
def validate_passengers (p : Passengers) : Except FlightError Unit :=
  if (p.adults + p.children + p.infants_in_seat + p.infants_on_lap) % 2 ^ 32 > 9 then
    Except.error (FlightError.Validation
      ("total passengers ("
        ++ toString ((p.adults + p.children + p.infants_in_seat + p.infants_on_lap) % 2 ^ 32)
        ++ ") exceeds maximum of 9"))
  else if (p.adults + p.children + p.infants_in_seat + p.infants_on_lap) % 2 ^ 32 = 0 then
    Except.error (FlightError.Validation "at least one passenger required")
  else if p.infants_on_lap > p.adults then
    Except.error (FlightError.Validation "infants on lap cannot exceed number of adults")
  else
    Except.ok ()

/-- QueryParams::validate (src/query.rs lines 132-169), factored through
`validate_legs` and `validate_passengers` exactly in source order. -/
def validate (q : QueryParams) : Except FlightError Unit :=
  if q.legs.isEmpty then
    Except.error (FlightError.Validation "at least one flight leg required")
  else
    match validate_legs q.legs with
    | Except.error e => Except.error e
    | Except.ok () => validate_passengers q.passengers

/-! ## Untyped response tree (model of serde_json::Value)

Numbers are split into integers (`int`, carrying the mathematical value,
which serde stores as i64 or u64) and non-integer numbers (`float`).  The
IEEE-754 payload of a float is not modelled: every accessor the source
uses (`as_array`, `as_str`, `as_i64`, `as_u64`) returns `None` on floats,
so the payload is unobservable here. -/

inductive JVal where
  | null
  | bool (b : Bool)
  | int (n : Int)
  | float
  | str (s : String)
  | arr (elems : List JVal)
  | obj (fields : List (String × JVal))

def JVal.is_null : JVal → Bool
  | JVal.null => true
  | _ => false

def JVal.as_array : JVal → Option (List JVal)
  | JVal.arr a => some a
  | _ => none

def JVal.as_str : JVal → Option String
  | JVal.str s => some s
  | _ => none

/-- serde_json `Value::as_i64`: some iff the number is an integer that
fits in a signed 64-bit integer. -/
def JVal.as_i64 : JVal → Option Int
  | JVal.int n => if -(2 ^ 63) ≤ n ∧ n < 2 ^ 63 then some n else none
  | _ => none

/-- serde_json `Value::as_u64`: some iff the number is an integer that
fits in an unsigned 64-bit integer. -/
def JVal.as_u64 : JVal → Option Nat
  | JVal.int n => if 0 ≤ n ∧ n < 2 ^ 64 then some n.toNat else none
  | _ => none

/-! ## Positional decoder and response extractor (src/parse.rs) -/

def get_val (val : JVal) (idx : Nat) : Option JVal :=
  val.as_array.bind fun arr => arr[idx]?

def get_str (val : JVal) (idx : Nat) : Option String :=
  (get_val val idx).bind JVal.as_str

def get_i64 (val : JVal) (idx : Nat) : Option Int :=
  (get_val val idx).bind JVal.as_i64

/-- src/parse.rs lines 19-21: `as_u64` then `as u32`, a truncating cast,
hence the `% 2 ^ 32`. -/
def get_u32 (val : JVal) (idx : Nat) : Option Nat :=
  ((get_val val idx).bind JVal.as_u64).map fun v => v % 2 ^ 32

/-! Typed result records (src/model.rs). -/

structure Airport where
  code : String
  name : String
deriving DecidableEq

structure FlightDateTime where
  year : Nat
  month : Nat
  day : Nat
  hour : Nat
  minute : Nat
deriving DecidableEq

structure Segment where
  from_airport : Airport
  to_airport : Airport
  departure : FlightDateTime
  arrival : FlightDateTime
  duration_minutes : Nat
  aircraft : Option String
deriving DecidableEq

structure CarbonEmission where
  emission_grams : Option Int
  typical_grams : Option Int
deriving DecidableEq

structure FlightResult where
  flight_type : String
  airlines : List String
  segments : List Segment
  price : Option Int
  carbon : CarbonEmission
deriving DecidableEq

structure Airline where
  code : String
  name : String
deriving DecidableEq

structure Alliance where
  code : String
  name : String
deriving DecidableEq

structure SearchMetadata where
  airlines : List Airline
  alliances : List Alliance
deriving DecidableEq

structure SearchResult where
  flights : List FlightResult
  metadata : SearchMetadata
deriving DecidableEq

/-- src/parse.rs lines 49-57. -/
def parse_datetime (date_val time_val : JVal) : Option FlightDateTime :=
  (get_u32 date_val 0).bind fun year =>
  (get_u32 date_val 1).bind fun month =>
  (get_u32 date_val 2).bind fun day =>
  (get_u32 time_val 0).bind fun hour =>
  some { year := year, month := month, day := day, hour := hour,
         minute := (get_u32 time_val 1).getD 0 }

/-- src/parse.rs lines 59-89. -/
def parse_segment (sf : JVal) : Option Segment :=
  (get_str sf 3).bind fun from_code =>
  (get_str sf 6).bind fun to_code =>
  (get_val sf 20).bind fun departure_date =>
  (get_val sf 8).bind fun departure_time =>
  (parse_datetime departure_date departure_time).bind fun departure =>
  (get_val sf 21).bind fun arrival_date =>
  (get_val sf 10).bind fun arrival_time =>
  (parse_datetime arrival_date arrival_time).bind fun arrival =>
  some { from_airport := { code := from_code, name := (get_str sf 4).getD "" },
         to_airport := { code := to_code, name := (get_str sf 5).getD "" },
         departure := departure,
         arrival := arrival,
         duration_minutes := (get_u32 sf 11).getD 0,
         aircraft := get_str sf 17 }

/-- src/parse.rs lines 91-123. -/
def parse_flight (k : JVal) : Option FlightResult :=
  (get_val k 0).bind fun flight =>
  let extras := get_val flight 22
  some { flight_type := (get_str flight 0).getD "",
         airlines :=
           (((get_val flight 1).bind JVal.as_array).map fun arr =>
             arr.filterMap JVal.as_str).getD [],
         segments :=
           (((get_val flight 2).bind JVal.as_array).map fun arr =>
             arr.filterMap parse_segment).getD [],
         price := ((get_val k 1).bind fun v => get_val v 0).bind fun v => get_i64 v 1,
         carbon := { emission_grams := extras.bind fun e => get_i64 e 7,
                     typical_grams := extras.bind fun e => get_i64 e 8 } }

/-- src/parse.rs lines 125-153. -/
def parse_metadata (payload : JVal) : SearchMetadata :=
  match (get_val payload 7).bind fun v => get_val v 1 with
  | some meta_root =>
    { alliances :=
        (((get_val meta_root 0).bind JVal.as_array).getD []).filterMap fun item =>
          match get_str item 0, get_str item 1 with
          | some code, some name => some { code := code, name := name }
          | _, _ => none,
      airlines :=
        (((get_val meta_root 1).bind JVal.as_array).getD []).filterMap fun item =>
          match get_str item 0, get_str item 1 with
          | some code, some name => some { code := code, name := name }
          | _, _ => none }
  | none => { airlines := [], alliances := [] }

/-- src/parse.rs lines 155-171.  The match guard of the source
`Some(root) if !root.is_null()` is the `is_null` test below. -/
def parse_payload (payload : JVal) : Except FlightError SearchResult :=
  let metadata := parse_metadata payload
  match (get_val payload 3).bind fun v => get_val v 0 with
  | some root =>
    if root.is_null then Except.ok { flights := [], metadata := metadata }
    else
      match root.as_array with
      | some arr =>
        Except.ok { flights := arr.filterMap parse_flight, metadata := metadata }
      | none => Except.error (FlightError.JsParse "payload[3][0] is not an array")
  | none => Except.ok { flights := [], metadata := metadata }

/-! ## Slicing the embedded script (src/parse.rs lines 35-47) and a model
of serde_json::from_str over the tree grammar. -/

/-- Model of Rust `str::split_once(pat)` restricted to the part after the
first occurrence of the pattern (the source discards the part before). -/
def splitOnceAfter (pat : List Char) : List Char → Option (List Char)
  | [] => if pat.isPrefixOf ([] : List Char) then some [] else none
  | c :: rest =>
    if pat.isPrefixOf (c :: rest) then some ((c :: rest).drop pat.length)
    else splitOnceAfter pat rest

/-- Model of Rust `str::rsplit_once(sep)` restricted to the part before the
last occurrence of the separator (the source discards the part after). -/
def rsplitOnceBefore (sep : Char) : List Char → Option (List Char)
  | [] => none
  | c :: rest =>
    match rsplitOnceBefore sep rest with
    | some r => some (c :: r)
    | none => if c = sep then some [] else none

def jsonLBrace : Char := '\x7b'
def jsonRBrace : Char := '\x7d'

/-- JSON whitespace (space, tab, line feed, carriage return). -/
def jsonWs (c : Char) : Bool :=
  c == ' ' || c == '\t' || c == '\n' || c == '\r'

def skipWs (s : List Char) : List Char :=
  s.dropWhile jsonWs

def hexDigitVal (c : Char) : Option Nat :=
  if c.isDigit then some (c.toNat - 48)
  else if 'a' ≤ c ∧ c ≤ 'f' then some (c.toNat - 87)
  else if 'A' ≤ c ∧ c ≤ 'F' then some (c.toNat - 55)
  else none

/-- The body of a JSON string after the opening quote: returns the decoded
characters and the input after the closing quote.  Escapes are decoded as
in serde_json (surrogate-pair recombination is not modelled; no claim
exercises it). -/
def parseJsonStringBody (fuel : Nat) (s : List Char) : Option (List Char × List Char) :=
  match fuel with
  | 0 => none
  | fuel + 1 =>
    match s with
    | [] => none
    | '"' :: rest => some ([], rest)
    | '\\' :: esc :: rest =>
      let decoded : Option (Char × List Char) :=
        match esc with
        | '"' => some ('"', rest)
        | '\\' => some ('\\', rest)
        | '/' => some ('/', rest)
        | 'b' => some ('\x08', rest)
        | 'f' => some ('\x0c', rest)
        | 'n' => some ('\n', rest)
        | 'r' => some ('\r', rest)
        | 't' => some ('\t', rest)
        | 'u' =>
          match rest with
          | h1 :: h2 :: h3 :: h4 :: rest2 =>
            (hexDigitVal h1).bind fun v1 =>
            (hexDigitVal h2).bind fun v2 =>
            (hexDigitVal h3).bind fun v3 =>
            (hexDigitVal h4).bind fun v4 =>
            some (Char.ofNat (v1 * 4096 + v2 * 256 + v3 * 16 + v4), rest2)
          | _ => none
        | _ => none
      decoded.bind fun (c, rest2) =>
        (parseJsonStringBody fuel rest2).map fun (cs, r) => (c :: cs, r)
    | c :: rest =>
      if c.toNat < 0x20 then none
      else (parseJsonStringBody fuel rest).map fun (cs, r) => (c :: cs, r)

/-- A JSON number per the JSON grammar serde_json implements: optional
minus, integer part without redundant leading zeros, optional fraction and
exponent.  Integers that fit i64/u64 become `JVal.int`; everything else
(fractions, exponents, out-of-range integers) becomes a float. -/
def parseJsonNumber (s : List Char) : Option (JVal × List Char) :=
  let signed := match s with
    | '-' :: rest => (true, rest)
    | _ => (false, s)
  let neg := signed.1
  let s1 := signed.2
  let intDigits := s1.takeWhile Char.isDigit
  let rest1 := s1.dropWhile Char.isDigit
  if intDigits.isEmpty then none
  else if intDigits.length > 1 ∧ intDigits.headD '0' = '0' then none
  else
    let intResult : JVal :=
      let n : Nat := intDigits.foldl (fun acc c => acc * 10 + (c.toNat - 48)) 0
      if neg then
        if (n : Int) ≤ 2 ^ 63 then JVal.int (-(n : Int)) else JVal.float
      else
        if n < 2 ^ 64 then JVal.int (n : Int) else JVal.float
    let parseExp : List Char → Option (JVal × List Char) := fun r =>
      let r1 := match r with
        | '+' :: r2 => r2
        | '-' :: r2 => r2
        | _ => r
      let expDigits := r1.takeWhile Char.isDigit
      if expDigits.isEmpty then none
      else some (JVal.float, r1.dropWhile Char.isDigit)
    match rest1 with
    | '.' :: r =>
      let fracDigits := r.takeWhile Char.isDigit
      if fracDigits.isEmpty then none
      else
        match r.dropWhile Char.isDigit with
        | 'e' :: r2 => parseExp r2
        | 'E' :: r2 => parseExp r2
        | r2 => some (JVal.float, r2)
    | 'e' :: r => parseExp r
    | 'E' :: r => parseExp r
    | _ => some (intResult, rest1)

mutual

/-- One JSON value, recursive-descent with explicit fuel (each recursive
call strictly decreases the fuel; `json_from_chars` supplies more fuel
than any input can consume). -/
def parseJsonValue (fuel : Nat) (s : List Char) : Option (JVal × List Char) :=
  match fuel with
  | 0 => none
  | fuel + 1 =>
    match skipWs s with
    | 'n' :: 'u' :: 'l' :: 'l' :: rest => some (JVal.null, rest)
    | 't' :: 'r' :: 'u' :: 'e' :: rest => some (JVal.bool true, rest)
    | 'f' :: 'a' :: 'l' :: 's' :: 'e' :: rest => some (JVal.bool false, rest)
    | '"' :: rest =>
      (parseJsonStringBody fuel rest).map fun (cs, r) => (JVal.str (String.mk cs), r)
    | '[' :: rest =>
      (match skipWs rest with
       | ']' :: r => some (JVal.arr [], r)
       | r => (parseJsonElems fuel r).map fun (vs, r2) => (JVal.arr vs, r2))
    | c :: rest =>
      if c = jsonLBrace then
        match skipWs rest with
        | [] => none
        | c2 :: r =>
          if c2 = jsonRBrace then some (JVal.obj [], r)
          else (parseJsonMembers fuel (c2 :: r)).map fun (ms, r2) => (JVal.obj ms, r2)
      else if c = '-' ∨ c.isDigit then parseJsonNumber (c :: rest)
      else none
    | [] => none

/-- Comma-separated values up to and including the closing bracket. -/
def parseJsonElems (fuel : Nat) (s : List Char) : Option (List JVal × List Char) :=
  match fuel with
  | 0 => none
  | fuel + 1 =>
    (parseJsonValue fuel s).bind fun (v, r) =>
      match skipWs r with
      | ',' :: r2 => (parseJsonElems fuel r2).map fun (vs, r3) => (v :: vs, r3)
      | ']' :: r2 => some ([v], r2)
      | _ => none

/-- Comma-separated `"key": value` members up to and including the closing
brace. -/
def parseJsonMembers (fuel : Nat) (s : List Char) : Option (List (String × JVal) × List Char) :=
  match fuel with
  | 0 => none
  | fuel + 1 =>
    match skipWs s with
    | '"' :: rest =>
      (parseJsonStringBody fuel rest).bind fun (key, r) =>
        match skipWs r with
        | ':' :: r2 =>
          (parseJsonValue fuel r2).bind fun (v, r3) =>
            match skipWs r3 with
            | ',' :: r4 =>
              (parseJsonMembers fuel r4).map fun (ms, r5) =>
                ((String.mk key, v) :: ms, r5)
            | c :: r4 =>
              if c = jsonRBrace then some ([(String.mk key, v)], r4) else none
            | [] => none
        | _ => none
    | _ => none

end

/-- serde_json::from_str over the tree grammar: one value, then only
whitespace may remain. -/
def json_from_chars (s : List Char) : Option JVal :=
  match parseJsonValue (4 * (s.length + 1)) s with
  | some (v, rest) => if (skipWs rest).isEmpty then some v else none
  | none => none

/-- src/parse.rs lines 35-47: slice between the `data:` marker and the last
comma, then parse the slice.  the serde syntax-error text is abstracted to a
fixed message (no claim inspects it). -/
def parse_js (js : String) : Except FlightError JVal :=
  match splitOnceAfter "data:".data js.data with
  | none => Except.error (FlightError.JsParse "no \x27data:\x27 marker found")
  | some rest =>
    match rsplitOnceBefore ',' rest with
    | none => Except.error (FlightError.JsParse "no trailing comma found")
    | some data =>
      match json_from_chars data with
      | some v => Except.ok v
      | none => Except.error (FlightError.JsParse "payload syntax error")

/-! ## Specification-side definitions used to state the claims -/

/-- The strict reading of a date string "parseable as YYYY-MM-DD": four
digit characters, a dash, two digits, a dash, two digits, with year at
least 2000, month in 1..12 and day valid for that month and year under the
Gregorian leap rule.  This follows the wording of the spec, to be compared
with `validate_date` from the source. -/
def spec_date_yyyymmdd (s : String) : Bool :=
  match s.data with
  | [y1, y2, y3, y4, '-', m1, m2, '-', d1, d2] =>
    ([y1, y2, y3, y4, m1, m2, d1, d2].all Char.isDigit) &&
    (let y := (y1.toNat - 48) * 1000 + (y2.toNat - 48) * 100
               + (y3.toNat - 48) * 10 + (y4.toNat - 48)
     let m := (m1.toNat - 48) * 10 + (m2.toNat - 48)
     let d := (d1.toNat - 48) * 10 + (d2.toNat - 48)
     2000 ≤ y ∧ 1 ≤ m ∧ m ≤ 12 ∧ 1 ≤ d ∧ d ≤ days_in_month y m)
  | _ => false

/-- Declarative acceptance condition for `validate_date`: the string splits
on dashes into exactly three fields, each parses as a Rust-style unsigned
32-bit integer, and year, month and day satisfy the range and calendar
rules. -/
def date_accepted (s : String) : Prop :=
  ∃ py pm pd y m d,
    splitChar '-' s.data = [py, pm, pd] ∧
    parseU32 py = some y ∧ parseU32 pm = some m ∧ parseU32 pd = some d ∧
    2000 ≤ y ∧ 1 ≤ m ∧ m ≤ 12 ∧ 1 ≤ d ∧ d ≤ days_in_month y m

/-- The first failing check of a list, in order; `ok` when none fails. -/
def firstFailure : List (Except FlightError Unit) → Except FlightError Unit
  | [] => Except.ok ()
  | Except.ok () :: rest => firstFailure rest
  | Except.error e :: _ => Except.error e

/-- The full sequence of validation checks in the order the validator
encounters them: for each leg in order, origin airport, destination
airport, then date; after all legs, the passenger checks. -/
def leg_order_checks (q : QueryParams) : List (Except FlightError Unit) :=
  (q.legs.map fun leg =>
    [validate_airport leg.from_airport, validate_airport leg.to_airport,
     validate_date leg.date]).flatten
    ++ [validate_passengers q.passengers]

/-- A query that violates several validation rules at once: the first leg
has valid airports but an invalid date, the second leg has an invalid
origin airport. -/
def bad_order_query : QueryParams :=
  { legs := [{ date := "2026-13-01", from_airport := "AAA", to_airport := "BBB",
               max_stops := none, airlines := none },
             { date := "2026-01-01", from_airport := "xx", to_airport := "CCC",
               max_stops := none, airlines := none }],
    passengers := one_adult, seat := Seat.Economy, trip := TripType.OneWay,
    language := "", currency := "" }

/-! ## Theorems -/

theorem encode_varint_go_fuel (f₁ f₂ value : Nat) (h₁ : value < f₁) (h₂ : value < f₂) :
    encode_varint_go f₁ value = encode_varint_go f₂ value := by
  induction value using Nat.strong_induction_on generalizing f₁ f₂ with
  | _ value ih =>
    match f₁, f₂ with
    | f₁ + 1, f₂ + 1 =>
      simp only [encode_varint_go]
      by_cases h : value / 0x80 = 0
      · simp [h]
      · have hlt : value / 0x80 < value :=
          Nat.div_lt_self (Nat.pos_of_ne_zero (by intro h0; exact h (by simp [h0]))) (by norm_num)
        simp only [h, if_false]
        exact congrArg _ (ih (value / 0x80) hlt f₁ f₂ (by omega) (by omega))

/-- The fuel-based `encode_varint` satisfies exactly the recurrence of the
Rust loop in src/proto.rs lines 3-13. -/
theorem encode_varint_eq (value : Nat) :
    encode_varint value =
      if value / 0x80 = 0 then [value % 0x80]
      else (value % 0x80 + 0x80) :: encode_varint (value / 0x80) := by
  by_cases h : value / 0x80 = 0
  · simp [encode_varint, encode_varint_go, h]
  · have hlt : value / 0x80 < value :=
      Nat.div_lt_self (Nat.pos_of_ne_zero (by intro h0; exact h (by simp [h0]))) (by norm_num)
    simp only [h, if_false]
    show encode_varint_go (value + 1) value = _
    simp only [encode_varint_go, h, if_false]
    exact congrArg _
      (encode_varint_go_fuel value (value / 0x80 + 1) (value / 0x80) hlt (Nat.lt_succ_self _))

theorem utf8Bytes_ascii (c : Nat) (h : c < 128) : utf8Bytes c = [c] := by
  simp [utf8Bytes, h]

theorem flatten_utf8_length (l : List Char) (h : ∀ c ∈ l, c.toNat < 128) :
    ((l.map fun c => utf8Bytes c.toNat).flatten).length = l.length := by
  induction l with
  | nil => rfl
  | cons c rest ih =>
    simp only [List.map_cons, List.flatten_cons, List.length_append, List.length_cons]
    rw [utf8Bytes_ascii c.toNat (h c (by simp))]
    rw [ih fun x hx => h x (by simp [hx])]
    simp
    omega

/-- For an all-ASCII string the UTF-8 byte length equals the character
count, so the Rust byte-length check coincides with a character count. -/
theorem strBytes_length_of_ascii (s : String) (h : ∀ c ∈ s.data, c.toNat < 128) :
    (strBytes s).length = s.data.length :=
  flatten_utf8_length s.data h

theorem firstFailure_append (xs ys : List (Except FlightError Unit)) :
    firstFailure (xs ++ ys) =
      match firstFailure xs with
      | Except.ok () => firstFailure ys
      | Except.error e => Except.error e := by
  induction xs with
  | nil => simp [firstFailure]
  | cons x rest ih =>
    cases x with
    | ok u =>
      cases u
      simp [firstFailure, ih]
    | error e => simp [firstFailure]

/-- The per-leg validation loop returns the first failing check among the
per-leg check triples, in leg order. -/
theorem validate_legs_eq_firstFailure (legs : List FlightLeg) :
    validate_legs legs =
      firstFailure ((legs.map fun leg =>
        [validate_airport leg.from_airport, validate_airport leg.to_airport,
         validate_date leg.date]).flatten) := by
  induction legs with
  | nil => rfl
  | cons leg rest ih =>
    simp only [List.map_cons, List.flatten_cons]
    cases hf : validate_airport leg.from_airport with
    | error e => simp [validate_legs, hf, firstFailure]
    | ok u =>
      cases u
      cases ht : validate_airport leg.to_airport with
      | error e => simp [validate_legs, hf, ht, firstFailure]
      | ok u =>
        cases u
        cases hd : validate_date leg.date with
        | error e => simp [validate_legs, hf, ht, hd, firstFailure]
        | ok u =>
          cases u
          simp [validate_legs, hf, ht, hd, firstFailure, ih]

/-! ## Claim theorems -/

/-- Claim C1: for the literal one-way request with a single leg dated
2026-03-01 from LAX to NRT, no max-stops, no airline filter, one adult,
cabin Economy and trip type OneWay, the encoded bytes, base64-encoded with
the standard alphabet and padding, equal exactly the pinned token string. -/
theorem one_way_lax_nrt_base64_token :
    base64Encode (encode [lax_nrt_leg] one_adult Seat.Economy TripType.OneWay) =
      "GhoSCjIwMjYtMDMtMDFqBRIDTEFYcgUSA05SVEIBAUgBmAEC" := by
  rfl

/-- Claim C2: for every passenger count with at least one passenger, the
encoder expands the counts into one small-integer code per passenger
(1 per adult, 2 per child, 3 per infant-in-seat, 4 per infant-on-lap) in
that category order, and writes all codes as a single length-delimited
field 8 whose payload is the concatenation of the codes as varints with no
tags between them; in particular counts (2, 1, 1, 0) expand to
[1, 1, 2, 3]. -/
theorem passengers_packed_field8 (legs : List FlightLeg) (p : Passengers)
    (seat : Seat) (trip : TripType)
    (h : 0 < p.adults + p.children + p.infants_in_seat + p.infants_on_lap) :
    passengers_to_enums p =
      List.replicate p.adults 1 ++ List.replicate p.children 2
        ++ List.replicate p.infants_in_seat 3 ++ List.replicate p.infants_on_lap 4 ∧
    encode legs p seat trip =
      (legs.map fun leg => encode_submessage 3 (encode_flight_data leg)).flatten
        ++ encode_tag 8 2
        ++ encode_varint ((passengers_to_enums p).map encode_varint).flatten.length
        ++ ((passengers_to_enums p).map encode_varint).flatten
        ++ encode_tag 9 0 ++ encode_varint (seat_to_varint seat)
        ++ encode_tag 19 0 ++ encode_varint (trip_to_varint trip) ∧
    passengers_to_enums { adults := 2, children := 1, infants_in_seat := 1, infants_on_lap := 0 }
      = [1, 1, 2, 3] := by
  refine ⟨rfl, ?_, by decide⟩
  have hne : (passengers_to_enums p).isEmpty = false := by
    rcases hc : passengers_to_enums p with _ | ⟨x, xs⟩
    · exfalso
      have := congrArg List.length hc
      simp [passengers_to_enums] at this
      omega
    · rfl
  simp only [encode, hne, Bool.false_eq_true, if_false]
  simp [List.append_assoc]

/-- Witness for claim C2: at counts (2, 1, 1, 0), on an empty leg list,
Economy, OneWay. -/
theorem passengers_packed_field8_witness :
    0 < (2 : Nat) + 1 + 1 + 0 ∧
    (passengers_to_enums { adults := 2, children := 1, infants_in_seat := 1, infants_on_lap := 0 } =
      List.replicate 2 1 ++ List.replicate 1 2 ++ List.replicate 1 3 ++ List.replicate 0 4 ∧
    encode [] { adults := 2, children := 1, infants_in_seat := 1, infants_on_lap := 0 }
        Seat.Economy TripType.OneWay =
      (([] : List FlightLeg).map fun leg => encode_submessage 3 (encode_flight_data leg)).flatten
        ++ encode_tag 8 2
        ++ encode_varint ((passengers_to_enums
              { adults := 2, children := 1, infants_in_seat := 1, infants_on_lap := 0 }).map
            encode_varint).flatten.length
        ++ ((passengers_to_enums
              { adults := 2, children := 1, infants_in_seat := 1, infants_on_lap := 0 }).map
            encode_varint).flatten
        ++ encode_tag 9 0 ++ encode_varint (seat_to_varint Seat.Economy)
        ++ encode_tag 19 0 ++ encode_varint (trip_to_varint TripType.OneWay) ∧
    passengers_to_enums { adults := 2, children := 1, infants_in_seat := 1, infants_on_lap := 0 }
      = [1, 1, 2, 3]) :=
  ⟨by decide,
   passengers_packed_field8 []
     { adults := 2, children := 1, infants_in_seat := 1, infants_on_lap := 0 }
     Seat.Economy TripType.OneWay (by decide)⟩

/-- Claim C3: adding the return leg NRT to LAX on 2026-03-10 and switching
the trip type to RoundTrip appends a second leg submessage (field 3) right
after the first leg bytes, changes only the trip-type varint (field 19,
value 2 for OneWay versus 1 for RoundTrip), and leaves the first leg bytes
unchanged as a prefix; the byte lists are given literally. -/
theorem round_trip_appends_leg_and_flips_trip :
    encode_submessage 3 (encode_flight_data lax_nrt_leg) =
      [26, 26, 18, 10, 50, 48, 50, 54, 45, 48, 51, 45, 48, 49,
       106, 5, 18, 3, 76, 65, 88, 114, 5, 18, 3, 78, 82, 84] ∧
    encode [lax_nrt_leg] one_adult Seat.Economy TripType.OneWay =
      encode_submessage 3 (encode_flight_data lax_nrt_leg)
        ++ [66, 1, 1, 72, 1] ++ [152, 1, 2] ∧
    encode [lax_nrt_leg, nrt_lax_leg] one_adult Seat.Economy TripType.RoundTrip =
      encode_submessage 3 (encode_flight_data lax_nrt_leg)
        ++ encode_submessage 3 (encode_flight_data nrt_lax_leg)
        ++ [66, 1, 1, 72, 1] ++ [152, 1, 1] ∧
    encode_tag 19 0 = [152, 1] ∧
    encode_varint (trip_to_varint TripType.OneWay) = [2] ∧
    encode_varint (trip_to_varint TripType.RoundTrip) = [1] := by
  exact ⟨by decide, by decide, by decide, by decide, by decide, by decide⟩

/-- Counterexample to claim C4 as stated: the validator accepts
"2026-3-1", which is not parseable as strict YYYY-MM-DD (two-digit month
and day), so acceptance is not equivalent to the spec wording. -/
theorem date_format_counterexample :
    validate_date "2026-3-1" = Except.ok () ∧ spec_date_yyyymmdd "2026-3-1" = false := by
  exact ⟨by decide, by decide⟩

/-- Claim C4, amended: the validator accepts a date string if and only if
it splits on dashes into exactly three fields, each of which parses as a
Rust-style unsigned 32-bit integer (so digit-count padding is not
enforced and a leading plus sign is allowed), with year at least 2000,
month in 1..12 and day valid for that month and year under the Gregorian
leap rule; otherwise it rejects with an invalid-date error naming the
offending string.  The specific examples of the claim all hold. -/
theorem date_validation_amended :
    (∀ s : String,
      (validate_date s = Except.ok () ↔ date_accepted s) ∧
      (validate_date s = Except.ok () ∨
        validate_date s = Except.error (FlightError.InvalidDate s))) ∧
    validate_date "2026-02-30" = Except.error (FlightError.InvalidDate "2026-02-30") ∧
    validate_date "2026-04-31" = Except.error (FlightError.InvalidDate "2026-04-31") ∧
    validate_date "2025-02-29" = Except.error (FlightError.InvalidDate "2025-02-29") ∧
    validate_date "2026-02-28" = Except.ok () ∧
    validate_date "2028-02-29" = Except.ok () := by
  refine ⟨fun s => ⟨?_, ?_⟩, by decide, by decide, by decide, by decide, by decide⟩
  · unfold validate_date date_accepted
    rcases hsp : splitChar '-' s.data with _ | ⟨p0, _ | ⟨p1, _ | ⟨p2, _ | ⟨p3, ps⟩⟩⟩⟩ <;>
      simp only [hsp]
    · simp
    · simp
    · simp
    · rcases hy : parseU32 p0 with _ | y
      · simp [hy]
      rcases hm : parseU32 p1 with _ | m
      · simp [hy, hm]
      rcases hd : parseU32 p2 with _ | d
      · simp [hy, hm, hd]
      simp only [hy, hm, hd]
      split_ifs with h1 h2
      · constructor
        · intro hc
          exact absurd hc (by simp)
        · rintro ⟨py, pm, pd, y', m', d', hp, hy', hm', hd', h2000, hm1, hm12, hd1, hdm⟩
          injection hp with e0 hp'
          injection hp' with e1 hp''
          injection hp'' with e2 _
          subst e0; subst e1; subst e2
          rw [hy] at hy'
          rw [hm] at hm'
          injection hy' with ey
          injection hm' with em
          omega
      · constructor
        · intro hc
          exact absurd hc (by simp)
        · rintro ⟨py, pm, pd, y', m', d', hp, hy', hm', hd', h2000, hm1, hm12, hd1, hdm⟩
          injection hp with e0 hp'
          injection hp' with e1 hp''
          injection hp'' with e2 _
          subst e0; subst e1; subst e2
          rw [hy] at hy'
          rw [hm] at hm'
          rw [hd] at hd'
          injection hy' with ey
          injection hm' with em
          injection hd' with ed
          subst ey; subst em; subst ed
          omega
      · constructor
        · intro _
          exact ⟨p0, p1, p2, y, m, d, rfl, hy, hm, hd,
            by omega, by omega, by omega, by omega, by omega⟩
        · intro _
          rfl
    · simp
  · unfold validate_date
    rcases hsp : splitChar '-' s.data with _ | ⟨p0, _ | ⟨p1, _ | ⟨p2, _ | ⟨p3, ps⟩⟩⟩⟩ <;>
      simp only [hsp]
    · simp
    · simp
    · simp
    · rcases hy : parseU32 p0 with _ | y
      · simp [hy]
      rcases hm : parseU32 p1 with _ | m
      · simp [hy, hm]
      rcases hd : parseU32 p2 with _ | d
      · simp [hy, hm, hd]
      simp only [hy, hm, hd]
      split_ifs <;> simp
    · simp

/-- Counterexample to claim C5 as stated: at counts adults = 2^31,
children = 2^31, infants_in_seat = 2, infants_on_lap = 0 the mathematical
total 2^32 + 2 violates the at-most-9 rule, yet the program computes the
wrapping 32-bit u32 sum, 2, and accepts (release semantics; a debug build
panics instead of producing the claimed error), so this violation is not
rejected with the claimed message. -/
theorem passenger_wrap_counterexample :
    validate { legs := [lax_nrt_leg],
               passengers := { adults := 2 ^ 31, children := 2 ^ 31,
                               infants_in_seat := 2, infants_on_lap := 0 },
               seat := Seat.Economy, trip := TripType.OneWay,
               language := "", currency := "" }
      = Except.ok () ∧
    9 < 2 ^ 31 + 2 ^ 31 + 2 + 0 ∧
    (2 ^ 31 + 2 ^ 31 + 2 + 0) % 2 ^ 32 = 2 := by
  exact ⟨by decide, by decide, by decide⟩

/-- Claim C5, amended: when the leg checks pass, validation applies the
three rules to the total as the program computes it, the wrapping 32-bit
sum of the four counts: it succeeds if and only if that wrapped total is
between 1 and 9 and infants-on-lap do not exceed adults, and each
violation (with the rules checked in source order, earlier rules passing)
yields the descriptive validation error of the source, stating the
wrapped total or the ratio breach.  Whenever the mathematical sum fits in
32 bits, the rules hold verbatim for the mathematical sum. -/
theorem passenger_count_rules (q : QueryParams) (hlegs : q.legs ≠ [])
    (hok : validate_legs q.legs = Except.ok ()) :
    (validate q = Except.ok () ↔
      1 ≤ (q.passengers.adults + q.passengers.children
            + q.passengers.infants_in_seat + q.passengers.infants_on_lap) % 2 ^ 32 ∧
      (q.passengers.adults + q.passengers.children
            + q.passengers.infants_in_seat + q.passengers.infants_on_lap) % 2 ^ 32 ≤ 9 ∧
      q.passengers.infants_on_lap ≤ q.passengers.adults) ∧
    (9 < (q.passengers.adults + q.passengers.children
          + q.passengers.infants_in_seat + q.passengers.infants_on_lap) % 2 ^ 32 →
      validate q = Except.error (FlightError.Validation
        ("total passengers ("
          ++ toString ((q.passengers.adults + q.passengers.children
                + q.passengers.infants_in_seat + q.passengers.infants_on_lap) % 2 ^ 32)
          ++ ") exceeds maximum of 9"))) ∧
    ((q.passengers.adults + q.passengers.children
          + q.passengers.infants_in_seat + q.passengers.infants_on_lap) % 2 ^ 32 = 0 →
      validate q = Except.error (FlightError.Validation "at least one passenger required")) ∧
    (1 ≤ (q.passengers.adults + q.passengers.children
          + q.passengers.infants_in_seat + q.passengers.infants_on_lap) % 2 ^ 32 →
      (q.passengers.adults + q.passengers.children
          + q.passengers.infants_in_seat + q.passengers.infants_on_lap) % 2 ^ 32 ≤ 9 →
      q.passengers.adults < q.passengers.infants_on_lap →
      validate q = Except.error (FlightError.Validation
        "infants on lap cannot exceed number of adults")) ∧
    (q.passengers.adults + q.passengers.children
          + q.passengers.infants_in_seat + q.passengers.infants_on_lap < 2 ^ 32 →
      (validate q = Except.ok () ↔
        1 ≤ q.passengers.adults + q.passengers.children
              + q.passengers.infants_in_seat + q.passengers.infants_on_lap ∧
        q.passengers.adults + q.passengers.children
              + q.passengers.infants_in_seat + q.passengers.infants_on_lap ≤ 9 ∧
        q.passengers.infants_on_lap ≤ q.passengers.adults)) := by
  have hemp : q.legs.isEmpty = false := by
    rcases hq : q.legs with _ | _
    · exact absurd hq hlegs
    · rfl
  have hvp : validate q = validate_passengers q.passengers := by
    unfold validate
    simp only [hemp, Bool.false_eq_true, if_false, hok]
  rw [hvp]
  unfold validate_passengers
  refine ⟨?_, ?_, ?_, ?_, ?_⟩
  · constructor
    · intro hok2
      split_ifs at hok2 with h1 h2 h3 <;>
        first
        | omega
        | exact absurd hok2 (by simp)
    · intro hcon
      split_ifs with h1 h2 h3 <;>
        first
        | rfl
        | exact absurd hcon (by omega)
  · intro h1
    split_ifs with hc <;>
      first
      | rfl
      | exact absurd h1 (by omega)
  · intro h0
    split_ifs with hc1 hc2 <;>
      first
      | rfl
      | exact absurd h0 (by omega)
  · intro h1 h9 hratio
    split_ifs with hc1 hc2 hc3 <;>
      first
      | rfl
      | exact absurd hratio (by omega)
      | exact absurd h9 (by omega)
      | exact absurd h1 (by omega)
  · intro hfit
    constructor
    · intro hok2
      split_ifs at hok2 with h1 h2 h3 <;>
        first
        | omega
        | exact absurd hok2 (by simp)
    · intro hcon
      split_ifs with h1 h2 h3 <;>
        first
        | rfl
        | exact absurd hcon (by omega)

/-- Witness for claim C5: a one-leg query with passenger counts
(5, 3, 2, 0), total 10, is rejected with the total-passengers message. -/
theorem passenger_count_rules_witness :
    ([lax_nrt_leg] : List FlightLeg) ≠ [] ∧
    validate_legs [lax_nrt_leg] = Except.ok () ∧
    validate { legs := [lax_nrt_leg],
               passengers := { adults := 5, children := 3, infants_in_seat := 2,
                               infants_on_lap := 0 },
               seat := Seat.Economy, trip := TripType.OneWay,
               language := "en", currency := "USD" }
      = Except.error (FlightError.Validation "total passengers (10) exceeds maximum of 9") :=
  ⟨by decide, by rfl,
   (passenger_count_rules
      { legs := [lax_nrt_leg],
        passengers := { adults := 5, children := 3, infants_in_seat := 2,
                        infants_on_lap := 0 },
        seat := Seat.Economy, trip := TripType.OneWay,
        language := "en", currency := "USD" }
      (by decide) (by rfl)).2.1 (by decide)⟩

/-- Claim C6: the validator accepts an airport code if and only if it is
exactly three characters, all uppercase ASCII letters (code points 65
through 90); otherwise it rejects with an invalid-airport error naming the
offending code.  The specific examples of the claim all hold. -/
theorem airport_code_rules :
    (∀ code : String,
      (validate_airport code = Except.ok () ↔
        code.data.length = 3 ∧ ∀ c ∈ code.data, 65 ≤ c.toNat ∧ c.toNat ≤ 90) ∧
      (validate_airport code = Except.ok () ∨
        validate_airport code = Except.error (FlightError.InvalidAirport code))) ∧
    validate_airport "hel" = Except.error (FlightError.InvalidAirport "hel") ∧
    validate_airport "HE" = Except.error (FlightError.InvalidAirport "HE") ∧
    validate_airport "HELX" = Except.error (FlightError.InvalidAirport "HELX") ∧
    validate_airport "H3L" = Except.error (FlightError.InvalidAirport "H3L") ∧
    validate_airport "HEL" = Except.ok () := by
  refine ⟨fun code => ⟨?_, ?_⟩, by decide, by decide, by decide, by decide, by decide⟩
  · have hup : (code.data.all is_ascii_uppercase = true) ↔
        (∀ c ∈ code.data, 65 ≤ c.toNat ∧ c.toNat ≤ 90) := by
      simp [List.all_eq_true, is_ascii_uppercase]
    unfold validate_airport
    split_ifs with h
    · constructor
      · intro hc
        exact absurd hc (by simp)
      · rintro ⟨h3, hcs⟩
        have hascii : ∀ c ∈ code.data, c.toNat < 128 := fun c hc => by
          have := hcs c hc
          omega
        rcases h with h | h
        · exact h (by rw [strBytes_length_of_ascii code hascii]; exact h3)
        · exact h (hup.mpr hcs)
    · push_neg at h
      obtain ⟨hb, ha⟩ := h
      have hcs := hup.mp ha
      have hascii : ∀ c ∈ code.data, c.toNat < 128 := fun c hc => by
        have := hcs c hc
        omega
      constructor
      · intro _
        refine ⟨?_, hcs⟩
        rw [← strBytes_length_of_ascii code hascii]
        exact hb
      · intro _
        rfl
  · unfold validate_airport
    split_ifs <;> simp

/-- Claim C7: for any query with at least one leg, validate returns the
first failing check in the deterministic order in which the validator
encounters the rules: for each leg in order, origin airport, destination
airport, then date; after all legs, the passenger checks.  Being a pure
function, the result is reproducible for identical input. -/
theorem validation_error_order (q : QueryParams) (h : q.legs ≠ []) :
    validate q = firstFailure (leg_order_checks q) := by
  have hemp : q.legs.isEmpty = false := by
    rcases hq : q.legs with _ | _
    · exact absurd hq h
    · rfl
  unfold validate leg_order_checks
  simp only [hemp, Bool.false_eq_true, if_false]
  rw [validate_legs_eq_firstFailure, firstFailure_append]
  cases hff : firstFailure ((q.legs.map fun leg =>
      [validate_airport leg.from_airport, validate_airport leg.to_airport,
       validate_date leg.date]).flatten) with
  | error e => rfl
  | ok u =>
    cases u
    cases hvp : validate_passengers q.passengers with
    | error e => simp [firstFailure, hvp]
    | ok u =>
      cases u
      simp [firstFailure, hvp]

/-- Witness for claim C7: a query violating two rules at once (an invalid
date on leg one and an invalid origin airport on leg two) surfaces the
first rule encountered, the leg-one date error. -/
theorem validation_error_order_witness :
    bad_order_query.legs ≠ [] ∧
    validate bad_order_query = firstFailure (leg_order_checks bad_order_query) ∧
    validate bad_order_query = Except.error (FlightError.InvalidDate "2026-13-01") :=
  ⟨by decide, validation_error_order bad_order_query (by decide), by decide⟩

/-- Claim C8: whenever the results position of the parsed tree holds an
array, parse_payload succeeds and its flight list is the element-wise
partial decode of that array: each element is decoded independently and
any element for which parse_flight fails is silently dropped while the
rest are kept; a malformed element never fails the whole call. -/
theorem malformed_entries_dropped (payload : JVal) (arr : List JVal)
    (h : ((get_val payload 3).bind fun v => get_val v 0) = some (JVal.arr arr)) :
    parse_payload payload =
      Except.ok { flights := arr.filterMap parse_flight,
                  metadata := parse_metadata payload } ∧
    ∀ pre post bad, arr = pre ++ bad :: post → parse_flight bad = none →
      arr.filterMap parse_flight =
        pre.filterMap parse_flight ++ post.filterMap parse_flight := by
  constructor
  · unfold parse_payload
    rw [h]
    simp [JVal.is_null, JVal.as_array]
  · rintro pre post bad rfl hbad
    simp [List.filterMap_append, List.filterMap_cons, hbad]

/-- Witness for claim C8: a results array holding two undecodable
elements parses successfully with both elements dropped. -/
theorem malformed_entries_dropped_witness :
    ((get_val (JVal.arr [JVal.null, JVal.null, JVal.null,
        JVal.arr [JVal.arr [JVal.null, JVal.int 3]]]) 3).bind fun v => get_val v 0)
      = some (JVal.arr [JVal.null, JVal.int 3]) ∧
    (parse_payload (JVal.arr [JVal.null, JVal.null, JVal.null,
        JVal.arr [JVal.arr [JVal.null, JVal.int 3]]]) =
      Except.ok { flights := [JVal.null, JVal.int 3].filterMap parse_flight,
                  metadata := parse_metadata (JVal.arr [JVal.null, JVal.null, JVal.null,
                    JVal.arr [JVal.arr [JVal.null, JVal.int 3]]]) } ∧
    ∀ pre post bad, [JVal.null, JVal.int 3] = pre ++ bad :: post → parse_flight bad = none →
      [JVal.null, JVal.int 3].filterMap parse_flight =
        pre.filterMap parse_flight ++ post.filterMap parse_flight) :=
  ⟨by rfl, malformed_entries_dropped _ _ (by rfl)⟩

/-- Claim C9: decoding a script body that is exactly the literal
data-colon payload followed by the side-channel marker (slicing between
the marker and the last comma, parsing the slice, then extracting) yields
a result with an empty flight list and empty airline and alliance
metadata lists, with no error raised. -/
theorem empty_payload_decodes_empty :
    (parse_js "data:[null,null,null,[null],null,null,null,[null,[[],[]]]],sideChannel").bind
        parse_payload
      = Except.ok { flights := [], metadata := { airlines := [], alliances := [] } } := by
  rfl

/-- Claim C10: when the results position of the parsed tree holds a value
that is neither null nor an array, parse_payload fails the entire call
with the payload-parse error naming position [3][0]. -/
theorem wrong_typed_results_root_errors (payload v : JVal)
    (h : ((get_val payload 3).bind fun x => get_val x 0) = some v)
    (hnull : v.is_null = false) (harr : v.as_array = none) :
    parse_payload payload =
      Except.error (FlightError.JsParse "payload[3][0] is not an array") := by
  unfold parse_payload
  rw [h]
  simp [hnull, harr]

/-- Witness for claim C10: a tree whose results position holds the number
7 makes parse_payload return the payload-parse error. -/
theorem wrong_typed_results_root_errors_witness :
    ((get_val (JVal.arr [JVal.null, JVal.null, JVal.null, JVal.arr [JVal.int 7]]) 3).bind
        fun x => get_val x 0) = some (JVal.int 7) ∧
    (JVal.int 7).is_null = false ∧
    (JVal.int 7).as_array = none ∧
    parse_payload (JVal.arr [JVal.null, JVal.null, JVal.null, JVal.arr [JVal.int 7]]) =
      Except.error (FlightError.JsParse "payload[3][0] is not an array") :=
  ⟨by rfl, by rfl, by rfl,
   wrong_typed_results_root_errors _ _ (by rfl) (by rfl) (by rfl)⟩

end Flyr
